import Mathlib

/-!
Verification of the butterstick gateware sources (`02_pmod.py`, `04_usb.py`):
the VCCIO PWM/PDM voltage controller and the LUNA ECP5 clock-domain generator.

The Python code is shallowly embedded: Python floats are modelled as rationals,
Python `int()` as truncation toward zero, Python dicts as functions into
`Option`, and a `raise` as the `Except.error`/`Option.none` branch of an
otherwise pure elaboration function.
-/

/-- Python conversion `int()` applied to a real value: truncation toward zero
(floor for nonnegative arguments, ceiling for negative ones). -/
def pyTrunc (q : ℚ) : ℤ := if 0 ≤ q then ⌊q⌋ else ⌈q⌉

/-- Method `VccioCtrl._pwm_timer_limit` (04_usb.py lines 25-35):
`limit_float = (3.546 - voltage) / 2.601; return int(limit_float * 2**14)`. -/
def pwm_timer_limit (voltage : ℚ) : ℤ :=
  pyTrunc ((3546/1000 - voltage) / (2601/1000) * 2^14)

/-- Modelled from the spec for comparison with the code: the stated spec
invariant `clamp(round(analytic_formula(voltage) * 2^counter_width), 0,
2^counter_width - 1)` for a 14-bit counter. -/
def spec_clamped_threshold (voltage : ℚ) : ℤ :=
  max 0 (min (round ((3546/1000 - voltage) / (2601/1000) * 2^14)) (2^14 - 1))

/-- State of `VccioCtrl.elaborate`: the sole register is the 14-bit
`pwm_timer = Signal(14)`. -/
structure VccioState where
  pwm_timer : ℕ
deriving DecidableEq

/-- One `sync`-domain tick: `m.d.sync += pwm_timer.eq(pwm_timer + 1)`,
wrapping at the 14-bit signal width. -/
def vccio_step (s : VccioState) : VccioState :=
  ⟨(s.pwm_timer + 1) % 2^14⟩

/-- Combinational PDM output of one channel:
`vccio_pins.pdm[i].eq(pwm_timer < limit)`.  Amaranth compares the 14-bit
unsigned counter and the Python integer constant at full width, so the
comparison is the mathematical one on the underlying values. -/
def pdm_output (limit : ℤ) (s : VccioState) : Bool :=
  decide ((s.pwm_timer : ℤ) < limit)

/-- Hardware produced by `VccioCtrl.elaborate` (04_usb.py lines 37-55):
either the empty module of the early-return branch, or the three PDM
comparators (with `en` driven to 1). -/
inductive VccioModule where
  | empty
  | pwm (limit0 limit1 limit2 : ℤ)
deriving DecidableEq

/-- Method `VccioCtrl.elaborate` as a function of the per-channel voltage
configuration `platform.vccio_voltage`.  If channel 0 is unconfigured the
code logs a warning and returns the empty module; otherwise it builds the
three comparators.  A `none` result models the Python `TypeError` crash
when channel 0 is configured but channel 1 or 2 is not. -/
def vccio_ctrl_module (vccio_voltage : ℕ → Option ℚ) : Option VccioModule :=
  match vccio_voltage 0 with
  | none => some .empty
  | some v0 =>
    match vccio_voltage 1, vccio_voltage 2 with
    | some v1, some v2 =>
        some (.pwm (pwm_timer_limit v0) (pwm_timer_limit v1) (pwm_timer_limit v2))
    | _, _ => none

/- Helper lemmas: concrete evaluations of the duty-threshold function. -/

lemma pwm_timer_limit_at_zero : pwm_timer_limit 0 = 22336 := by
  unfold pwm_timer_limit pyTrunc
  rw [if_pos (by norm_num), Int.floor_eq_iff]
  norm_num

lemma pwm_timer_limit_at_four : pwm_timer_limit 4 = -2859 := by
  unfold pwm_timer_limit pyTrunc
  rw [if_neg (by norm_num), Int.ceil_eq_iff]
  norm_num

lemma pwm_timer_limit_at_33_10 : pwm_timer_limit (33/10) = 1549 := by
  unfold pwm_timer_limit pyTrunc
  rw [if_pos (by norm_num), Int.floor_eq_iff]
  norm_num

lemma floor_formula_at_four :
    ⌊((3546/1000 - 4) / (2601/1000) * 2^14 : ℚ)⌋ = -2860 := by
  rw [Int.floor_eq_iff]
  norm_num

lemma spec_clamped_threshold_at_zero : spec_clamped_threshold 0 = 16383 := by
  unfold spec_clamped_threshold
  rw [round_eq]
  rw [show ⌊((3546/1000 - 0) / (2601/1000) * 2^14 : ℚ) + 1/2⌋ = 22337 from by
    rw [Int.floor_eq_iff]
    norm_num]
  norm_num

/-- Truncation toward zero is monotone. -/
lemma pyTrunc_mono {x y : ℚ} (h : x ≤ y) : pyTrunc x ≤ pyTrunc y := by
  unfold pyTrunc
  by_cases hx : 0 ≤ x <;> by_cases hy : 0 ≤ y
  · rw [if_pos hx, if_pos hy]
    exact Int.floor_le_floor h
  · exact absurd (le_trans hx h) hy
  · rw [if_neg hx, if_pos hy]
    have h1 : ⌈x⌉ ≤ 0 := Int.ceil_le.mpr (by exact_mod_cast le_of_lt (not_le.mp hx))
    have h2 : 0 ≤ ⌊y⌋ := Int.floor_nonneg.mpr hy
    omega
  · rw [if_neg hx, if_neg hy]
    exact Int.ceil_le_ceil h

/-- C3: the formula of the claim is `floor`, but `int()` truncates toward zero;
at voltage 4 V the code yields -2859 while the floor is -2860. -/
theorem pwm_timer_limit_floor_cex :
    pwm_timer_limit 4 = -2859 ∧
    ⌊((3546/1000 - 4) / (2601/1000) * 2^14 : ℚ)⌋ = -2860 ∧
    (-2859 : ℤ) ≠ -2860 :=
  ⟨pwm_timer_limit_at_four, floor_formula_at_four, by decide⟩

/-- C3 (amended): for every voltage not above 3.546 V the computed threshold
equals `floor(((3.546 - v) / 2.601) * 2^14)` (truncation toward zero agrees
with floor there), and at v = 3.3 the threshold is 1549 (approximately 1550). -/
theorem pwm_timer_limit_floor (v : ℚ) (h : v ≤ 3546/1000) :
    pwm_timer_limit v = ⌊(3546/1000 - v) / (2601/1000) * 2^14⌋ ∧
    pwm_timer_limit (33/10) = 1549 := by
  refine ⟨?_, pwm_timer_limit_at_33_10⟩
  unfold pwm_timer_limit pyTrunc
  rw [if_pos]
  have h1 : (0:ℚ) ≤ (3546/1000 - v) / (2601/1000) := by
    apply div_nonneg (by linarith) (by norm_num)
  have h2 : (0:ℚ) ≤ (2:ℚ)^14 := by norm_num
  exact mul_nonneg h1 h2

/-- C3 witness: the amended theorem applied at v = 3.3. -/
theorem pwm_timer_limit_floor_witness :
    (33/10 : ℚ) ≤ 3546/1000 ∧
    (pwm_timer_limit (33/10) = ⌊((3546/1000 - 33/10) / (2601/1000) * 2^14 : ℚ)⌋ ∧
      pwm_timer_limit (33/10) = 1549) :=
  ⟨by norm_num, pwm_timer_limit_floor (33/10) (by norm_num)⟩

/-- C6: the stored threshold is not the clamped rounded value: at voltage 0
the code stores 22336, while the clamped formula of the spec gives 16383, and the
stored value lies outside 0..2^14 - 1. -/
theorem threshold_clamp_cex :
    pwm_timer_limit 0 = 22336 ∧
    spec_clamped_threshold 0 = 16383 ∧
    ¬(pwm_timer_limit 0 ≤ 2^14 - 1) := by
  refine ⟨pwm_timer_limit_at_zero, spec_clamped_threshold_at_zero, ?_⟩
  rw [pwm_timer_limit_at_zero]
  decide

/-- C6 (amended): the threshold is the unclamped, unrounded truncation of the
analytic formula times 2^14; it lies in 0..2^14 - 1 for voltages inside the
calibrated band 0.945 V < v <= 3.546 V (not for every voltage). -/
theorem threshold_in_range_on_calibrated_band (v : ℚ)
    (h1 : 945/1000 < v) (h2 : v ≤ 3546/1000) :
    pwm_timer_limit v = ⌊(3546/1000 - v) / (2601/1000) * 2^14⌋ ∧
    0 ≤ pwm_timer_limit v ∧ pwm_timer_limit v ≤ 2^14 - 1 := by
  have hq0 : (0:ℚ) ≤ (3546/1000 - v) / (2601/1000) * 2^14 := by
    apply mul_nonneg (div_nonneg (by linarith) (by norm_num)) (by norm_num)
  have heq : pwm_timer_limit v = ⌊(3546/1000 - v) / (2601/1000) * 2^14⌋ := by
    unfold pwm_timer_limit pyTrunc
    rw [if_pos hq0]
  refine ⟨heq, ?_, ?_⟩
  · rw [heq]
    exact Int.floor_nonneg.mpr hq0
  · rw [heq]
    have hlt : (3546/1000 - v) / (2601/1000) * 2^14 < (16384:ℚ) := by
      have hd : (3546/1000 - v) / (2601/1000) < 1 := by
        rw [div_lt_one (by norm_num)]
        linarith
      calc (3546/1000 - v) / (2601/1000) * 2^14
          < 1 * 2^14 := by
            apply mul_lt_mul_of_pos_right hd (by norm_num)
        _ = (16384:ℚ) := by norm_num
    have hfl : ⌊(3546/1000 - v) / (2601/1000) * 2^14⌋ < (16384:ℤ) := by
      rw [Int.floor_lt]
      exact_mod_cast hlt
    omega

/-- C6 witness: the amended theorem applied at v = 3.3. -/
theorem threshold_in_range_witness :
    ((945/1000 : ℚ) < 33/10 ∧ (33/10 : ℚ) ≤ 3546/1000) ∧
    (pwm_timer_limit (33/10) = ⌊((3546/1000 - 33/10) / (2601/1000) * 2^14 : ℚ)⌋ ∧
      0 ≤ pwm_timer_limit (33/10) ∧ pwm_timer_limit (33/10) ≤ 2^14 - 1) :=
  ⟨⟨by norm_num, by norm_num⟩,
    threshold_in_range_on_calibrated_band (33/10) (by norm_num) (by norm_num)⟩

/-- C9: the duty threshold is monotonically non-increasing in the target
voltage. -/
theorem pwm_timer_limit_antitone (v1 v2 : ℚ) (h : v1 ≤ v2) :
    pwm_timer_limit v2 ≤ pwm_timer_limit v1 := by
  unfold pwm_timer_limit
  apply pyTrunc_mono
  have hd : (3546/1000 - v2) / (2601/1000) ≤ (3546/1000 - v1) / (2601/1000) := by
    apply div_le_div_of_nonneg_right (by linarith) (by norm_num)
  apply mul_le_mul_of_nonneg_right hd (by norm_num)

/-- C9 witness: monotonicity applied at voltages 2 V and 3 V. -/
theorem pwm_timer_limit_antitone_witness :
    (2:ℚ) ≤ 3 ∧ pwm_timer_limit 3 ≤ pwm_timer_limit 2 :=
  ⟨by norm_num, pwm_timer_limit_antitone 2 3 (by norm_num)⟩

/- Clock-domain generator (LunaECP5DomainGenerator, 04_usb.py lines 57-238). -/

/-- PLL parameter record of `pll_params_per_freq` (only `CLKFB_DIV` is
frequency-dependent in the source table). -/
structure PllParams where
  CLKFB_DIV : ℕ
deriving DecidableEq

/-- The `pll_params_per_freq` table (04_usb.py lines 129-136).  The Python
dict is keyed by `str(clock_frequency)` of a float; two floats render to the
same string exactly when they are equal, so the lookup is an exact match on
the frequency value in Hz. -/
def pll_params_per_freq (clock_frequency : ℚ) : Option PllParams :=
  if clock_frequency = 62000000 then some ⟨4⟩
  else if clock_frequency = 60000000 then some ⟨4⟩
  else if clock_frequency = 30000000 then some ⟨8⟩
  else none

/-- The validation step of `create_submodules` (04_usb.py lines 138-141):
`raise ValueError(...)` when the frequency is absent from the table, and
otherwise hand the matched record to the `EHXPLLL` instance created below
it.  The error branch is taken before any PLL hardware is produced. -/
def create_pll_instance (clock_frequency : ℚ) : Except String PllParams :=
  match pll_params_per_freq clock_frequency with
  | none => .error "Unsupported clock frequency"
  | some p => .ok p

/-- The reset wiring of `create_submodules` (04_usb.py lines 226-229): the
only `ResetSignal` assignments made are `sync` and `fast`, each driven
combinationally to the negation of the PLL lock signal. -/
def resetAssignments (pll_lock : Bool) : List (String × Bool) :=
  [("sync", !pll_lock), ("fast", !pll_lock)]

/-- Value read from the reset signal of a domain: the assigned value when the
domain appears in `resetAssignments`, and the Amaranth default of an
undriven reset signal (constant 0, i.e. deasserted) otherwise. -/
def domainResetSignal (pll_lock : Bool) (domain : String) : Bool :=
  ((resetAssignments pll_lock).lookup domain).getD false

/-- The three fixed PLL output taps (`_clk_240MHz`, `_clk_120MHz`,
`_clk_60MHz`, 04_usb.py lines 107-109). -/
inductive ClockTap where
  | clk60
  | clk120
  | clk240
deriving DecidableEq

/-- The `_clock_options` dict (04_usb.py lines 110-114): frequency in MHz to
PLL output tap; any other key raises `KeyError` on lookup, modelled as
`none`. -/
def clock_options (freq_mhz : ℕ) : Option ClockTap :=
  if freq_mhz = 60 then some .clk60
  else if freq_mhz = 120 then some .clk120
  else if freq_mhz = 240 then some .clk240
  else none

/-- The `generate_usb_clock` / `generate_sync_clock` / `generate_fast_clock`
methods (04_usb.py lines 231-238): all three look the selected frequency of
their domain up in `_clock_options`. -/
def generate_domain_clock (clock_frequencies : String → ℕ) (domain : String) :
    Option ClockTap :=
  clock_options (clock_frequencies domain)

/-- Board default frequencies `DEFAULT_CLOCK_FREQUENCIES_MHZ` (04_usb.py
lines 67-71 and 259-263). -/
def DEFAULT_CLOCK_FREQUENCIES_MHZ : String → Option ℕ :=
  fun domain =>
    if domain = "fast" then some 240
    else if domain = "sync" then some 120
    else if domain = "usb" then some 60
    else none

/-- The frequency-resolution step of `create_submodules` (04_usb.py lines
91-96): copy the platform defaults, then `dict.update` with the optional
caller-provided override mapping. -/
def resolve_clock_frequencies (clock_frequencies : Option (String → Option ℕ))
    (domain : String) : Option ℕ :=
  match clock_frequencies with
  | none => DEFAULT_CLOCK_FREQUENCIES_MHZ domain
  | some overrides =>
    match overrides domain with
    | some v => some v
    | none => DEFAULT_CLOCK_FREQUENCIES_MHZ domain

/-- C1: the code drives reset = NOT(lock) only for the "sync" and "fast"
domains; the reset of the "usb" domain is never assigned, so while lock is low it
reads the undriven default 0 instead of the 1 the claim requires. -/
theorem usb_domain_reset_not_driven :
    domainResetSignal false "sync" = true ∧
    domainResetSignal false "fast" = true ∧
    domainResetSignal true "sync" = false ∧
    domainResetSignal true "fast" = false ∧
    domainResetSignal false "usb" = false ∧
    (!false) = true := by
  decide

/-- C2: the frequency table maps 30 MHz to CLKFB_DIV = 8 and 60 MHz and
62 MHz to CLKFB_DIV = 4, and `create_submodules` raises, before the PLL is
instantiated, exactly for frequencies outside that three-element set. -/
theorem pll_frequency_validation :
    (create_pll_instance 30000000 = .ok ⟨8⟩ ∧
      create_pll_instance 60000000 = .ok ⟨4⟩ ∧
      create_pll_instance 62000000 = .ok ⟨4⟩) ∧
    ∀ f : ℚ, (∃ e, create_pll_instance f = .error e) ↔
      (f ≠ 30000000 ∧ f ≠ 60000000 ∧ f ≠ 62000000) := by
  refine ⟨⟨rfl, rfl, rfl⟩, ?_⟩
  intro f
  unfold create_pll_instance pll_params_per_freq
  by_cases h62 : f = 62000000
  · simp [h62]
  · by_cases h60 : f = 60000000
    · simp [h60]
    · by_cases h30 : f = 30000000
      · simp [h30]
      · simp [h62, h60, h30]

/-- C2 witness: the validator applied at the unsupported frequency 100 Hz. -/
theorem pll_frequency_validation_witness :
    ∃ e, create_pll_instance 100 = .error e :=
  (pll_frequency_validation.2 100).mpr (by norm_num)

/-- C5: for any requested domain frequency, clock generation succeeds with
the matching PLL tap exactly for 60, 120 and 240 MHz and fails (Python
`KeyError` on `_clock_options`) for every other value. -/
theorem domain_clock_tap_validation (freqs : String → ℕ) (domain : String) :
    (generate_domain_clock freqs domain = none ↔
      freqs domain ≠ 60 ∧ freqs domain ≠ 120 ∧ freqs domain ≠ 240) ∧
    (freqs domain = 60 → generate_domain_clock freqs domain = some .clk60) ∧
    (freqs domain = 120 → generate_domain_clock freqs domain = some .clk120) ∧
    (freqs domain = 240 → generate_domain_clock freqs domain = some .clk240) := by
  unfold generate_domain_clock clock_options
  refine ⟨?_, ?_, ?_, ?_⟩
  · by_cases h60 : freqs domain = 60
    · simp [h60]
    · by_cases h120 : freqs domain = 120
      · simp [h120]
      · by_cases h240 : freqs domain = 240
        · simp [h240]
        · simp [h60, h120, h240]
  · intro h
    simp [h]
  · intro h
    simp [h]
  · intro h
    simp [h]

/-- C5 witness: requesting "sync" = 100 fails, while "usb" = 60 resolves to
the 60 MHz tap, on the frequency map (fast 240, sync 100, usb 60). -/
theorem domain_clock_tap_validation_witness :
    generate_domain_clock
      (fun d => if d = "sync" then 100 else if d = "fast" then 240 else 60)
      "sync" = none ∧
    generate_domain_clock
      (fun d => if d = "sync" then 100 else if d = "fast" then 240 else 60)
      "usb" = some .clk60 :=
  ⟨(domain_clock_tap_validation
      (fun d => if d = "sync" then 100 else if d = "fast" then 240 else 60)
      "sync").1.mpr (by decide),
   (domain_clock_tap_validation
      (fun d => if d = "sync" then 100 else if d = "fast" then 240 else 60)
      "usb").2.1 (by decide)⟩

/-- C8: frequency resolution takes the board default and applies the
optional override mapping key by key: overridden domains take the override
value, domains absent from the override keep the board default, and with no
override mapping the defaults are returned unchanged. -/
theorem clock_frequency_resolution (overrides : String → Option ℕ)
    (domain : String) :
    (∀ v, overrides domain = some v →
      resolve_clock_frequencies (some overrides) domain = some v) ∧
    (overrides domain = none →
      resolve_clock_frequencies (some overrides) domain =
        DEFAULT_CLOCK_FREQUENCIES_MHZ domain) ∧
    resolve_clock_frequencies none domain = DEFAULT_CLOCK_FREQUENCIES_MHZ domain := by
  refine ⟨?_, ?_, rfl⟩
  · intro v hv
    simp [resolve_clock_frequencies, hv]
  · intro hnone
    simp [resolve_clock_frequencies, hnone]

/-- C8 witness: an override mapping sending "usb" to 120 takes effect on
"usb" and leaves "fast" at the 240 MHz board default. -/
theorem clock_frequency_resolution_witness :
    resolve_clock_frequencies
      (some (fun d => if d = "usb" then some 120 else none)) "usb" = some 120 ∧
    resolve_clock_frequencies
      (some (fun d => if d = "usb" then some 120 else none)) "fast" =
      DEFAULT_CLOCK_FREQUENCIES_MHZ "fast" :=
  ⟨(clock_frequency_resolution
      (fun d => if d = "usb" then some 120 else none) "usb").1 120 (by decide),
   (clock_frequency_resolution
      (fun d => if d = "usb" then some 120 else none) "fast").2.1 (by decide)⟩

/- VccioCtrl behaviour: missing-voltage handling, duty cycle, saturation. -/

/-- C4: with no voltage configured, `VccioCtrl.elaborate` does not signal a
fatal error; it logs a warning and still instantiates (an empty module), so
the claimed `MissingVoltageConfiguration` failure never happens. -/
theorem missing_voltage_no_fatal_error :
    vccio_ctrl_module (fun _ => none) = some VccioModule.empty ∧
    vccio_ctrl_module (fun _ => none) ≠ none :=
  ⟨rfl, by decide⟩

/-- C4 (amended): when the voltage of channel 0 is unconfigured, elaboration
returns the empty module (a logged warning, no PWM hardware) instead of
failing; when all three channels are configured it produces the three PWM
comparators. -/
theorem missing_voltage_warns (vccio_voltage : ℕ → Option ℚ) :
    (vccio_voltage 0 = none →
      vccio_ctrl_module vccio_voltage = some VccioModule.empty) ∧
    (∀ a b c, vccio_voltage 0 = some a → vccio_voltage 1 = some b →
      vccio_voltage 2 = some c →
      vccio_ctrl_module vccio_voltage =
        some (.pwm (pwm_timer_limit a) (pwm_timer_limit b) (pwm_timer_limit c))) := by
  constructor
  · intro h
    simp [vccio_ctrl_module, h]
  · intro a b c h0 h1 h2
    simp [vccio_ctrl_module, h0, h1, h2]

/-- C4 witness: the amended theorem applied to the all-unconfigured platform
and to a platform with 3.3 V, 3.3 V, 1.8 V targets. -/
theorem missing_voltage_warns_witness :
    vccio_ctrl_module (fun _ => none) = some VccioModule.empty ∧
    vccio_ctrl_module (fun i => if i = 0 then some (33/10)
        else if i = 1 then some (33/10) else if i = 2 then some (18/10) else none) =
      some (.pwm (pwm_timer_limit (33/10)) (pwm_timer_limit (33/10))
        (pwm_timer_limit (18/10))) :=
  ⟨(missing_voltage_warns (fun _ => none)).1 rfl,
   (missing_voltage_warns (fun i => if i = 0 then some (33/10)
        else if i = 1 then some (33/10) else if i = 2 then some (18/10)
        else none)).2 (33/10) (33/10) (18/10) rfl rfl rfl⟩

/- Helper lemmas for the duty-cycle count (C7). -/

lemma vccio_step_iterate (s0 : ℕ) (hs : s0 < 2^14) (i : ℕ) :
    (vccio_step^[i] ⟨s0⟩).pwm_timer = (s0 + i) % 2^14 := by
  have h14 : (2:ℕ)^14 = 16384 := by norm_num
  induction i with
  | zero =>
    simp only [Function.iterate_zero, id_eq, Nat.add_zero]
    rw [Nat.mod_eq_of_lt hs]
  | succ n ih =>
    rw [Function.iterate_succ_apply']
    show ((vccio_step^[n] ⟨s0⟩).pwm_timer + 1) % 2^14 = (s0 + (n + 1)) % 2^14
    rw [ih, h14]
    omega

lemma filter_lt_range_card (t : ℕ) (ht : t ≤ 16384) :
    ((Finset.range 16384).filter (fun c => c < t)).card = t := by
  have h : (Finset.range 16384).filter (fun c => c < t) = Finset.range t := by
    ext c
    simp only [Finset.mem_filter, Finset.mem_range]
    omega
  rw [h, Finset.card_range]

lemma shifted_filter_card (t s0 : ℕ) (ht : t ≤ 16384) (hs : s0 < 16384) :
    ((Finset.range 16384).filter (fun i => (s0 + i) % 16384 < t)).card = t := by
  have key : ((Finset.range 16384).filter (fun i => (s0 + i) % 16384 < t)).card =
      ((Finset.range 16384).filter (fun c => c < t)).card := by
    apply Finset.card_bij (fun i _ => (s0 + i) % 16384)
    · intro a ha
      simp only [Finset.mem_filter, Finset.mem_range] at ha ⊢
      omega
    · intro a ha b hb hab
      simp only [Finset.mem_filter, Finset.mem_range] at ha hb
      omega
    · intro b hb
      simp only [Finset.mem_filter, Finset.mem_range] at hb
      refine ⟨(b + 16384 - s0) % 16384, ?_, ?_⟩
      · simp only [Finset.mem_filter, Finset.mem_range]
        omega
      · omega
  rw [key, filter_lt_range_card t ht]

/-- C7: the PDM output of each channel is the pure combinational comparison
`pwm_timer < t`, and over any full 2^14-tick carrier period started in any
state the output is high for exactly t ticks. -/
theorem pwm_duty_cycle (t : ℕ) (ht : t ≤ 2^14 - 1) :
    (∀ s : VccioState, pdm_output (t : ℤ) s = true ↔ s.pwm_timer < t) ∧
    ∀ s0 : ℕ, s0 < 2^14 →
      ((Finset.range (2^14)).filter
        (fun i => pdm_output (t : ℤ) (vccio_step^[i] ⟨s0⟩) = true)).card = t := by
  have h14 : (2:ℕ)^14 = 16384 := by norm_num
  have hout : ∀ s : VccioState, pdm_output (t : ℤ) s = true ↔ s.pwm_timer < t := by
    intro s
    simp only [pdm_output, decide_eq_true_eq]
    exact Nat.cast_lt
  refine ⟨hout, ?_⟩
  intro s0 hs0
  have hcong : (Finset.range (2^14)).filter
        (fun i => pdm_output (t : ℤ) (vccio_step^[i] ⟨s0⟩) = true) =
      (Finset.range 16384).filter (fun i => (s0 + i) % 16384 < t) := by
    rw [h14]
    apply Finset.filter_congr
    intro i _
    rw [hout, vccio_step_iterate s0 hs0 i, h14]
  rw [hcong]
  apply shifted_filter_card
  · omega
  · omega

/-- C7 witness: the duty-cycle theorem applied at threshold 3 from counter
state 0. -/
theorem pwm_duty_cycle_witness :
    ((3:ℕ) ≤ 2^14 - 1 ∧ (0:ℕ) < 2^14) ∧
    (pdm_output ((3:ℕ) : ℤ) ⟨2⟩ = true ∧
      ((Finset.range (2^14)).filter
        (fun i => pdm_output ((3:ℕ) : ℤ) (vccio_step^[i] ⟨0⟩) = true)).card = 3) :=
  ⟨⟨by norm_num, by norm_num⟩,
   ⟨((pwm_duty_cycle 3 (by norm_num)).1 ⟨2⟩).mpr (by norm_num),
    (pwm_duty_cycle 3 (by norm_num)).2 0 (by norm_num)⟩⟩

/-- C10: the threshold constant is compared against the counter at full
width, with no clamping or truncation to 14 bits: a threshold above
2^14 - 1 drives the output high on every tick of the counter period, and a
threshold at or below zero drives it low on every tick. -/
theorem pwm_threshold_unclamped (v : ℚ) :
    ((2^14 - 1 : ℤ) < pwm_timer_limit v →
      ∀ s : VccioState, s.pwm_timer < 2^14 →
        pdm_output (pwm_timer_limit v) s = true) ∧
    (pwm_timer_limit v ≤ 0 →
      ∀ s : VccioState, pdm_output (pwm_timer_limit v) s = false) := by
  constructor
  · intro h s hs
    simp only [pdm_output, decide_eq_true_eq]
    have hcast : (s.pwm_timer : ℤ) < 2^14 := by exact_mod_cast hs
    have h14 : (2:ℤ)^14 = 16384 := by norm_num
    rw [h14] at hcast
    rw [h14] at h
    omega
  · intro h s
    simp only [pdm_output, decide_eq_false_iff_not, not_lt]
    have : (0:ℤ) ≤ (s.pwm_timer : ℤ) := Int.natCast_nonneg _
    omega

/-- C10 witness: at v = 0 V the threshold 22336 exceeds 16383 and the output
is high, and at v = 4 V the threshold -2859 is nonpositive and the output is
low, both at counter value 5. -/
theorem pwm_threshold_unclamped_witness :
    ((2^14 - 1 : ℤ) < pwm_timer_limit 0 ∧ (5:ℕ) < 2^14 ∧
      pdm_output (pwm_timer_limit 0) ⟨5⟩ = true) ∧
    (pwm_timer_limit 4 ≤ 0 ∧ pdm_output (pwm_timer_limit 4) ⟨5⟩ = false) :=
  ⟨⟨by rw [pwm_timer_limit_at_zero]; norm_num, by norm_num,
    (pwm_threshold_unclamped 0).1 (by rw [pwm_timer_limit_at_zero]; norm_num) ⟨5⟩
      (by norm_num)⟩,
   ⟨by rw [pwm_timer_limit_at_four]; norm_num,
    (pwm_threshold_unclamped 4).2 (by rw [pwm_timer_limit_at_four]; norm_num) ⟨5⟩⟩⟩
